import Mathlib

/-!
Verification of the logo-locator repository (`app/utils.py`, `app/detect.py`,
`app/profiles.py`, `app/main.py`) against its specification.

Modelling conventions:
* Python ints are `ℤ`; Python floats are modelled as exact rationals `ℚ`.
* Python's built-in `round` (banker's rounding, ties-to-even) is `pyRound`;
  Python's `int()` truncation toward zero is `pyInt`.
* OpenCV primitives (`ORB.detectAndCompute`, `BFMatcher.knnMatch`,
  `findHomography`, `Canny`, `resize`, `matchTemplate`, `minMaxLoc`) are
  opaque collaborators: their outputs for the image pair at hand are fields
  of an oracle structure, and the repository's own control flow and
  arithmetic on those outputs is translated literally.
* Python exceptions are modelled with `Except`; `None` with `Option`.
-/

/-- Python `round(q)`: nearest integer, ties to even (banker's rounding). -/
def pyRound (q : ℚ) : ℤ :=
  if q - ⌊q⌋ < 1/2 then ⌊q⌋
  else if 1/2 < q - ⌊q⌋ then ⌊q⌋ + 1
  else if ⌊q⌋ % 2 = 0 then ⌊q⌋ else ⌊q⌋ + 1

/-- Python `int(q)`: truncation toward zero. -/
def pyInt (q : ℚ) : ℤ :=
  if 0 ≤ q then ⌊q⌋ else ⌈q⌉

/-- Python `s.lower()` restricted to its effect on ASCII text. -/
def pyLower (s : String) : String :=
  String.mk (s.data.map Char.toLower)

/-- Python `a or d` for an optional string `a`: `None` and `""` are falsy. -/
def pyStrOr (a : Option String) (d : String) : String :=
  match a with
  | none => d
  | some s => if s = "" then d else s

/-- From `app/utils.py`, `clamp_bbox`: clamp x into [0, width-1], y into
[0, height-1], then w into [1, width-x], h into [1, height-y]. -/
def clamp_bbox (x y w h width height : ℤ) : ℤ × ℤ × ℤ × ℤ :=
  let x' := max 0 (min x (width - 1))
  let y' := max 0 (min y (height - 1))
  let w' := max 1 (min w (width - x'))
  let h' := max 1 (min h (height - y'))
  (x', y', w', h')

/-- From `app/utils.py`, `rect_from_logo_relative` ("edge" mode): x1 = x + left_mul*w,
y1 = y + top_mul*h, x2 = x + w + right_mul*w, y2 = y + h + bottom_mul*h, each
rounded; min/max normalization; clamp to image bounds. `image_shape` is
(height, width); the source raises on a shape of length < 2, which a pair
cannot represent. -/
def rect_from_logo_relative (image_shape : ℤ × ℤ) (logo_bbox : ℤ × ℤ × ℤ × ℤ)
    (left_mul top_mul right_mul bottom_mul : ℚ) : ℤ × ℤ × ℤ × ℤ :=
  let height := image_shape.1
  let width := image_shape.2
  let x := logo_bbox.1
  let y := logo_bbox.2.1
  let w := logo_bbox.2.2.1
  let h := logo_bbox.2.2.2
  let x1 := pyRound ((x : ℚ) + left_mul * (w : ℚ))
  let y1 := pyRound ((y : ℚ) + top_mul * (h : ℚ))
  let x2 := pyRound ((x : ℚ) + (w : ℚ) + right_mul * (w : ℚ))
  let y2 := pyRound ((y : ℚ) + (h : ℚ) + bottom_mul * (h : ℚ))
  let x_min := min x1 x2
  let y_min := min y1 y2
  let x_max := max x1 x2
  let y_max := max y1 y2
  clamp_bbox x_min y_min (x_max - x_min) (y_max - y_min) width height

/-- From `app/profiles.py`, the "size"-mode branch of `Profile.compute_bbox`
(the identical computation is inlined in `app/main.py` and `cli.py`):
x1 = x + left_mul*w, y1 = y + top_mul*h, x2 = x1 + width_mul*w,
y2 = y1 + height_mul*h, each rounded; bbox = (min, min, abs, abs); clamp. -/
def size_mode_bbox (image_shape : ℤ × ℤ) (logo_bbox : ℤ × ℤ × ℤ × ℤ)
    (left_mul top_mul width_mul height_mul : ℚ) : ℤ × ℤ × ℤ × ℤ :=
  let x := logo_bbox.1
  let y := logo_bbox.2.1
  let w := logo_bbox.2.2.1
  let h := logo_bbox.2.2.2
  let x1 := pyRound ((x : ℚ) + left_mul * (w : ℚ))
  let y1 := pyRound ((y : ℚ) + top_mul * (h : ℚ))
  let x2 := pyRound ((x1 : ℚ) + width_mul * (w : ℚ))
  let y2 := pyRound ((y1 : ℚ) + height_mul * (h : ℚ))
  clamp_bbox (min x1 x2) (min y1 y2) |x2 - x1| |y2 - y1| image_shape.2 image_shape.1

/-- From `app/profiles.py`: the pydantic `Literal["edge", "size"]` type of the
`mode` field. -/
inductive Mode where
  | edge : Mode
  | size : Mode
deriving DecidableEq, Repr

/-- From `app/profiles.py`, `class Profile`. Optional floats are `Option ℚ`. -/
structure Profile where
  name : String
  mode : Mode
  left_mul : ℚ
  top_mul : ℚ
  right_mul : Option ℚ
  bottom_mul : Option ℚ
  width_mul : Option ℚ
  height_mul : Option ℚ
  section_thickness : ℤ
deriving DecidableEq, Repr

/-- From `app/profiles.py`, `Profile.compute_bbox`: dispatch on mode; raise
`ValueError` (modelled as `Except.error`) when the mode-required multipliers
are absent; otherwise edge mode delegates to `rect_from_logo_relative` and
size mode computes the inline size-mode bbox. -/
def Profile.compute_bbox (p : Profile) (image_shape : ℤ × ℤ)
    (logo_bbox : ℤ × ℤ × ℤ × ℤ) : Except String (ℤ × ℤ × ℤ × ℤ) :=
  match p.mode with
  | Mode.edge =>
    match p.right_mul, p.bottom_mul with
    | some r, some b =>
      Except.ok (rect_from_logo_relative image_shape logo_bbox p.left_mul p.top_mul r b)
    | _, _ => Except.error "edge mode requires right_mul and bottom_mul"
  | Mode.size =>
    match p.width_mul, p.height_mul with
    | some wm, some hm =>
      Except.ok (size_mode_bbox image_shape logo_bbox p.left_mul p.top_mul wm hm)
    | _, _ => Except.error "size mode requires width_mul and height_mul"

/-- From `app/detect.py`, `class DetectionResult`: method, confidence, bbox,
polygon. The Python class is a dict; here it is a record with the four keys
the detectors populate. -/
structure DetectionResult where
  method : String
  confidence : ℚ
  bbox : ℤ × ℤ × ℤ × ℤ
  polygon : List (ℤ × ℤ)
deriving DecidableEq, Repr

/-- A 3×3 homography matrix over exact rationals. -/
structure Mat3 where
  m00 : ℚ
  m01 : ℚ
  m02 : ℚ
  m10 : ℚ
  m11 : ℚ
  m12 : ℚ
  m20 : ℚ
  m21 : ℚ
  m22 : ℚ
deriving DecidableEq, Repr

/-- Model of `cv2.perspectiveTransform` on a single point: projective application of
the matrix followed by dehomogenization. (Rational division is total, so the
degenerate zero-denominator case yields 0 instead of the infinities the
library would produce.) -/
def perspectivePt (m : Mat3) (p : ℚ × ℚ) : ℚ × ℚ :=
  let d := m.m20 * p.1 + m.m21 * p.2 + m.m22
  ((m.m00 * p.1 + m.m01 * p.2 + m.m02) / d,
   (m.m10 * p.1 + m.m11 * p.2 + m.m12) / d)

/-- Outputs of the OpenCV primitives that `detect_with_orb` calls on a fixed
image/template pair: keypoint counts and descriptor presence from
`ORB.detectAndCompute` on the template (1) and the image (2); the list of
(best, second-best) Hamming-distance pairs from `BFMatcher.knnMatch`
(named `matches` in the source, a reserved word here); the
`(H, mask)` result of `cv2.findHomography` (absent when no homography is
found); and the grayscale shapes (height, width) of the two inputs. -/
structure OrbOracle where
  kp1 : ℕ
  kp2 : ℕ
  des1 : Option Unit
  des2 : Option Unit
  knnMatches : List (ℚ × ℚ)
  hom : Option (Mat3 × Option (List Bool))
  tmplShape : ℤ × ℤ
  imgShape : ℤ × ℤ
deriving DecidableEq

/-- The "good" correspondences surviving the 0.75 ratio test
(`m.distance < 0.75 * n.distance`). -/
def orbGood (o : OrbOracle) : List (ℚ × ℚ) :=
  o.knnMatches.filter (fun mn => mn.1 < 3/4 * mn.2)

/-- From `app/detect.py`, `detect_with_orb`, over the oracle of OpenCV outputs:
fail (None) on missing descriptors or fewer than 4 keypoints on either side;
ratio-test filter; fail when fewer than `min_matches` good correspondences;
fail when no homography; otherwise project the template corners, take the
clamped axis-aligned bounding box, and report confidence
min(1, max(0, inliers/len(mask))) (0.0 when the mask is absent). -/
def detect_with_orb (o : OrbOracle) (min_matches : ℕ) : Option DetectionResult :=
  if o.des1 = none ∨ o.des2 = none ∨ o.kp1 < 4 ∨ o.kp2 < 4 then none
  else
    let good := orbGood o
    if good.length < min_matches then none
    else
      match o.hom with
      | none => none
      | some (Hm, mask) =>
        let h := o.tmplShape.1
        let w := o.tmplShape.2
        let p0 := perspectivePt Hm (0, 0)
        let p1 := perspectivePt Hm ((w : ℚ), 0)
        let p2 := perspectivePt Hm ((w : ℚ), (h : ℚ))
        let p3 := perspectivePt Hm (0, (h : ℚ))
        let x_min := pyInt (min (min p0.1 p1.1) (min p2.1 p3.1))
        let x_max := pyInt (max (max p0.1 p1.1) (max p2.1 p3.1))
        let y_min := pyInt (min (min p0.2 p1.2) (min p2.2 p3.2))
        let y_max := pyInt (max (max p0.2 p1.2) (max p2.2 p3.2))
        let c := clamp_bbox x_min y_min (x_max - x_min) (y_max - y_min)
          o.imgShape.2 o.imgShape.1
        let rfrac : ℚ :=
          match mask with
          | some ms => ((ms.countP id : ℤ) : ℚ) / ((ms.length : ℤ) : ℚ)
          | none => 0
        some { method := "orb"
               confidence := min 1 (max 0 rfrac)
               bbox := c
               polygon := [(pyInt p0.1, pyInt p0.2), (pyInt p1.1, pyInt p1.2),
                           (pyInt p2.1, pyInt p2.2), (pyInt p3.1, pyInt p3.2)] }

/-- Outputs of the OpenCV primitives that `detect_with_template` calls on a
fixed image/template pair: the grayscale image shape (Canny preserves shape,
so this is also the edge-map shape); per scale s, the shape (th, tw) of
`cv2.resize(tmpl_edges, None, fx=s, fy=s)`; and per scale s, the
(max_val, max_loc) pair from `cv2.minMaxLoc(cv2.matchTemplate(...))`. -/
structure TemplateOracle where
  imgShape : ℤ × ℤ
  resized : ℚ → ℤ × ℤ
  matchMax : ℚ → ℚ × ℤ × ℤ

/-- The default 33 scales `np.linspace(0.4, 2.0, num=33)` rounded to two
decimals. -/
def default_scales : List ℚ :=
  [0.4, 0.45, 0.5, 0.55, 0.6, 0.65, 0.7, 0.75, 0.8, 0.85, 0.9, 0.95, 1.0,
   1.05, 1.1, 1.15, 1.2, 1.25, 1.3, 1.35, 1.4, 1.45, 1.5, 1.55, 1.6, 1.65,
   1.7, 1.75, 1.8, 1.85, 1.9, 1.95, 2.0]

/-- The `continue` guard of the scale loop: the resized template is not
strictly smaller than the image in both dimensions, or is smaller than 8px
in either dimension. -/
def tmSkip (o : TemplateOracle) (s : ℚ) : Bool :=
  decide (o.imgShape.1 ≤ (o.resized s).1) || decide (o.imgShape.2 ≤ (o.resized s).2) ||
    decide ((o.resized s).1 < 8) || decide ((o.resized s).2 < 8)

/-- The candidate recorded for a non-skipped scale:
`best = (x, y, tw, th, max_val)`. -/
def tmRecord (o : TemplateOracle) (s : ℚ) : ℤ × ℤ × ℤ × ℤ × ℚ :=
  ((o.matchMax s).2.1, (o.matchMax s).2.2, (o.resized s).2, (o.resized s).1,
   (o.matchMax s).1)

/-- The `for s in scales` loop of `detect_with_template`, carrying
`best` and `best_val`; a candidate replaces the best only when its score is
strictly greater (`max_val > best_val`). -/
def tmLoop (o : TemplateOracle) :
    List ℚ → Option (ℤ × ℤ × ℤ × ℤ × ℚ) → ℚ → Option (ℤ × ℤ × ℤ × ℤ × ℚ) × ℚ
  | [], best, best_val => (best, best_val)
  | s :: rest, best, best_val =>
    if tmSkip o s then tmLoop o rest best best_val
    else if best_val < (o.matchMax s).1 then
      tmLoop o rest (some (tmRecord o s)) ((o.matchMax s).1)
    else tmLoop o rest best best_val

/-- From `app/detect.py`, `detect_with_template`, over the oracle of OpenCV
outputs: run the scale loop from `best = None`, `best_val = -1.0`; return
None when no candidate was recorded, else the clamped best bbox with the raw
best correlation score as confidence. A `None` scale list selects the 33
default scales. (The source's `th = max(1, int(3 / s))` before the resize is
dead — immediately overwritten by the resized shape — and is not modelled;
for s = 0 that line and the resize itself would raise, so the scale-list
theorems assume nothing about it only because the oracle is total.) -/
def detect_with_template (o : TemplateOracle) (scalesOpt : Option (List ℚ)) :
    Option DetectionResult :=
  let scales := match scalesOpt with | none => default_scales | some l => l
  match tmLoop o scales none (-1) with
  | (none, _) => none
  | (some (x, y, w, h, score), _) =>
    let c := clamp_bbox x y w h o.imgShape.2 o.imgShape.1
    some { method := "template"
           confidence := score
           bbox := c
           polygon := [(c.1, c.2.1), (c.1 + c.2.2.1, c.2.1),
                       (c.1 + c.2.2.1, c.2.1 + c.2.2.2), (c.1, c.2.1 + c.2.2.2)] }

/-- One fold step of the running maximum the loop maintains. -/
def tmStep (o : TemplateOracle) (acc : ℚ) (s : ℚ) : ℚ :=
  if tmSkip o s then acc else max acc (o.matchMax s).1

/-- A template-match run in which the single scale is NOT skipped (the 8×8
resized template fits the 100×100 image) but `cv2.minMaxLoc` reports a
maximal correlation of exactly -1, the mathematical minimum of
`TM_CCOEFF_NORMED` (attainable, e.g. a two-pixel template [0,255] over a
window [255,0]). -/
def tmOracleCx : TemplateOracle :=
  { imgShape := (100, 100)
    resized := fun _ => (8, 8)
    matchMax := fun _ => (-1, (0, 0)) }

/-- A successful template-match run: one scale, resized template 10×10
inside a 100×100 image, best correlation 1 (a perfect match) at (5,5). -/
def tmOracleWit : TemplateOracle :=
  { imgShape := (100, 100)
    resized := fun _ => (10, 10)
    matchMax := fun _ => (1, (5, 5)) }

/-- The result `detect_with_template tmOracleWit (some [1])` produces. -/
def tmResWit : DetectionResult :=
  { method := "template"
    confidence := 1
    bbox := (5, 5, 10, 10)
    polygon := [(5, 5), (15, 5), (15, 15), (5, 15)] }

/-- From `app/detect.py`, `detect_logo`: normalize the method via
`(method or "auto").lower()`; for "auto"/"orb" try the ORB detector first,
returning its result when it succeeds; when it fails return None for "orb",
else fall through to template matching (with the default scale list). -/
def detect_logo (oO : OrbOracle) (oT : TemplateOracle) (method : Option String) :
    Option DetectionResult :=
  let m := pyLower (pyStrOr method "auto")
  if m = "auto" ∨ m = "orb" then
    match detect_with_orb oO 10 with
    | some res => some res
    | none => if m = "orb" then none else detect_with_template oT none
  else detect_with_template oT none

/-- The identity homography. -/
def idMat3 : Mat3 :=
  { m00 := 1, m01 := 0, m02 := 0
    m10 := 0, m11 := 1, m12 := 0
    m20 := 0, m21 := 0, m22 := 1 }

/-- A successful ORB run: plenty of keypoints and descriptors on both sides,
10 correspondences all passing the ratio test (distance 1 against
second-best 2), identity homography with an all-inlier mask, a 10×10
template and a 100×100 image. -/
def orbOracleWit : OrbOracle :=
  { kp1 := 500
    kp2 := 1200
    des1 := some ()
    des2 := some ()
    knnMatches := List.replicate 10 (1, 2)
    hom := some (idMat3, some (List.replicate 10 true))
    tmplShape := (10, 10)
    imgShape := (100, 100) }

/-- The result `detect_with_orb orbOracleWit 10` produces. -/
def orbResWit : DetectionResult :=
  { method := "orb"
    confidence := 1
    bbox := (0, 0, 10, 10)
    polygon := [(0, 0), (10, 0), (10, 10), (0, 10)] }

/-- From `app/main.py`, the explicit-multiplier branch of the optional secondary
rectangle in `annotate` (and `cut_section`): requires left and top; with
right and bottom present uses edge mode; otherwise, with width and height
present, the inline size-mode computation; else no rectangle. -/
def explicit_section (shape : ℤ × ℤ) (bbox : ℤ × ℤ × ℤ × ℤ)
    (sl st sr sb swm shm : Option ℚ) : Option (ℤ × ℤ × ℤ × ℤ) :=
  match sl, st with
  | some l, some t =>
    match sr, sb with
    | some r, some b => some (rect_from_logo_relative shape bbox l t r b)
    | _, _ =>
      match swm, shm with
      | some wm, some hm => some (size_mode_bbox shape bbox l t wm hm)
      | _, _ => none
  | _, _ => none

/-- From `app/main.py`, the body of the `try` block in `annotate` that computes
the optional secondary rectangle: a truthy profile name (non-empty) is
looked up — a missing profile raises (HTTPException) and a profile whose
`compute_bbox` raises propagates its ValueError, both inside the `try` —
otherwise the explicit-multiplier branch runs. -/
def annotate_section_block (shape : ℤ × ℤ) (bbox : ℤ × ℤ × ℤ × ℤ)
    (profile : Option String) (getProfile : String → Option Profile)
    (sl st sr sb swm shm : Option ℚ) : Except String (Option (ℤ × ℤ × ℤ × ℤ)) :=
  match profile with
  | some pname =>
    if pname = "" then Except.ok (explicit_section shape bbox sl st sr sb swm shm)
    else
      match getProfile pname with
      | none => Except.error "Profile not found"
      | some prof =>
        match prof.compute_bbox shape bbox with
        | Except.error e => Except.error e
        | Except.ok bb => Except.ok (some bb)
  | none => Except.ok (explicit_section shape bbox sl st sr sb swm shm)

/-- From `app/main.py`, `annotate`, from the detection call on: 404 when the logo
is not found; otherwise draw the primary bbox, then run the secondary
try-block — `except Exception: pass` — and draw the secondary rectangle only
on success. The returned PNG is modelled by its information content: the
primary bbox drawn plus the optional secondary bbox drawn. -/
def annotate (res : Option DetectionResult) (shape : ℤ × ℤ)
    (profile : Option String) (getProfile : String → Option Profile)
    (sl st sr sb swm shm : Option ℚ) :
    Except ℕ ((ℤ × ℤ × ℤ × ℤ) × Option (ℤ × ℤ × ℤ × ℤ)) :=
  match res with
  | none => Except.error 404
  | some r =>
    match annotate_section_block shape r.bbox profile getProfile sl st sr sb swm shm with
    | Except.error _ => Except.ok (r.bbox, none)
    | Except.ok sec => Except.ok (r.bbox, sec)

/-- Claim C1: for every integer input and image size W,H ≥ 1, `clamp_bbox`
returns (x', y', w', h') with 0 ≤ x' < W, 0 ≤ y' < H, w' ≥ 1, h' ≥ 1,
x' + w' ≤ W, y' + h' ≤ H, and it computes this by first clamping x and y
into the image, then clamping w and h relative to the clamped origin. -/
theorem clamp_bbox_spec (x y w h W H : ℤ) (hW : 1 ≤ W) (hH : 1 ≤ H) :
    (0 ≤ (clamp_bbox x y w h W H).1 ∧ (clamp_bbox x y w h W H).1 < W ∧
     0 ≤ (clamp_bbox x y w h W H).2.1 ∧ (clamp_bbox x y w h W H).2.1 < H ∧
     1 ≤ (clamp_bbox x y w h W H).2.2.1 ∧ 1 ≤ (clamp_bbox x y w h W H).2.2.2 ∧
     (clamp_bbox x y w h W H).1 + (clamp_bbox x y w h W H).2.2.1 ≤ W ∧
     (clamp_bbox x y w h W H).2.1 + (clamp_bbox x y w h W H).2.2.2 ≤ H) ∧
    clamp_bbox x y w h W H =
      (max 0 (min x (W - 1)), max 0 (min y (H - 1)),
       max 1 (min w (W - max 0 (min x (W - 1)))),
       max 1 (min h (H - max 0 (min y (H - 1))))) := by
  refine ⟨?_, rfl⟩
  simp only [clamp_bbox]
  omega

/-- Concrete instance of `clamp_bbox_spec` (bbox (5,5,10,10) in an 8×8 image). -/
theorem clamp_bbox_spec_witness :
    (0 ≤ (clamp_bbox 5 5 10 10 8 8).1 ∧ (clamp_bbox 5 5 10 10 8 8).1 < 8 ∧
     0 ≤ (clamp_bbox 5 5 10 10 8 8).2.1 ∧ (clamp_bbox 5 5 10 10 8 8).2.1 < 8 ∧
     1 ≤ (clamp_bbox 5 5 10 10 8 8).2.2.1 ∧ 1 ≤ (clamp_bbox 5 5 10 10 8 8).2.2.2 ∧
     (clamp_bbox 5 5 10 10 8 8).1 + (clamp_bbox 5 5 10 10 8 8).2.2.1 ≤ 8 ∧
     (clamp_bbox 5 5 10 10 8 8).2.1 + (clamp_bbox 5 5 10 10 8 8).2.2.2 ≤ 8) ∧
    clamp_bbox 5 5 10 10 8 8 =
      (max 0 (min 5 (8 - 1)), max 0 (min 5 (8 - 1)),
       max 1 (min 10 (8 - max 0 (min 5 (8 - 1)))),
       max 1 (min 10 (8 - max 0 (min 5 (8 - 1))))) :=
  clamp_bbox_spec 5 5 10 10 8 8 (by decide) (by decide)

theorem pyRound_close (q : ℚ) : |(pyRound q : ℚ) - q| ≤ 1/2 := by
  have h0 : (⌊q⌋ : ℚ) ≤ q := Int.floor_le q
  have h1 : q < ⌊q⌋ + 1 := Int.lt_floor_add_one q
  unfold pyRound
  split_ifs with ha hb hc
  · rw [abs_le]; constructor <;> linarith
  · rw [abs_le]; push_cast; constructor <;> linarith
  · rw [abs_le]; constructor <;> linarith
  · rw [abs_le]; push_cast; constructor <;> linarith

theorem pyRound_diff (u v : ℚ) (h : |u - v| ≤ 1/2) :
    (pyRound u - pyRound v).natAbs ≤ 1 := by
  have hu := pyRound_close u
  have hv := pyRound_close v
  rw [abs_le] at h hu hv
  have h2 : (pyRound u - pyRound v : ℤ) < 2 := by
    have : ((pyRound u - pyRound v : ℤ) : ℚ) < ((2 : ℤ) : ℚ) := by push_cast; linarith
    exact_mod_cast this
  have h3 : (-2 : ℤ) < pyRound u - pyRound v := by
    have : (((-2 : ℤ)) : ℚ) < ((pyRound u - pyRound v : ℤ) : ℚ) := by push_cast; linarith
    exact_mod_cast this
  omega

/-- Claim C6: `rect_from_logo_relative` is invariant to the swapped
parameterization left = 1 + r, top = 1 + b, right = l - 1, bottom = t - 1,
which exchanges x1 with x2 and y1 with y2, thanks to the min/max
normalization before clamping. -/
theorem rect_swap_invariant (shape : ℤ × ℤ) (bbox : ℤ × ℤ × ℤ × ℤ) (l t r b : ℚ) :
    rect_from_logo_relative shape bbox (1 + r) (1 + b) (l - 1) (t - 1) =
      rect_from_logo_relative shape bbox l t r b := by
  simp only [rect_from_logo_relative]
  have e1 : ((bbox.1 : ℚ) + (1 + r) * (bbox.2.2.1 : ℚ)) =
      ((bbox.1 : ℚ) + (bbox.2.2.1 : ℚ) + r * (bbox.2.2.1 : ℚ)) := by ring
  have e2 : ((bbox.1 : ℚ) + (bbox.2.2.1 : ℚ) + (l - 1) * (bbox.2.2.1 : ℚ)) =
      ((bbox.1 : ℚ) + l * (bbox.2.2.1 : ℚ)) := by ring
  have e3 : ((bbox.2.1 : ℚ) + (1 + b) * (bbox.2.2.2 : ℚ)) =
      ((bbox.2.1 : ℚ) + (bbox.2.2.2 : ℚ) + b * (bbox.2.2.2 : ℚ)) := by ring
  have e4 : ((bbox.2.1 : ℚ) + (bbox.2.2.2 : ℚ) + (t - 1) * (bbox.2.2.2 : ℚ)) =
      ((bbox.2.1 : ℚ) + t * (bbox.2.2.2 : ℚ)) := by ring
  rw [e1, e2, e3, e4]
  rw [min_comm (pyRound ((bbox.1 : ℚ) + (bbox.2.2.1 : ℚ) + r * (bbox.2.2.1 : ℚ)))
        (pyRound ((bbox.1 : ℚ) + l * (bbox.2.2.1 : ℚ))),
      max_comm (pyRound ((bbox.1 : ℚ) + (bbox.2.2.1 : ℚ) + r * (bbox.2.2.1 : ℚ)))
        (pyRound ((bbox.1 : ℚ) + l * (bbox.2.2.1 : ℚ))),
      min_comm (pyRound ((bbox.2.1 : ℚ) + (bbox.2.2.2 : ℚ) + b * (bbox.2.2.2 : ℚ)))
        (pyRound ((bbox.2.1 : ℚ) + t * (bbox.2.2.2 : ℚ))),
      max_comm (pyRound ((bbox.2.1 : ℚ) + (bbox.2.2.2 : ℚ) + b * (bbox.2.2.2 : ℚ)))
        (pyRound ((bbox.2.1 : ℚ) + t * (bbox.2.2.2 : ℚ)))]

theorem clamp_bbox_close (x1 y1 w1 h1 x2 y2 w2 h2 W H : ℤ)
    (hx : (x1 - x2).natAbs ≤ 1) (hy : (y1 - y2).natAbs ≤ 1)
    (hw : (w1 - w2).natAbs ≤ 1) (hh : (h1 - h2).natAbs ≤ 1) :
    ((clamp_bbox x1 y1 w1 h1 W H).1 - (clamp_bbox x2 y2 w2 h2 W H).1).natAbs ≤ 1 ∧
    ((clamp_bbox x1 y1 w1 h1 W H).2.1 - (clamp_bbox x2 y2 w2 h2 W H).2.1).natAbs ≤ 1 ∧
    ((clamp_bbox x1 y1 w1 h1 W H).2.2.1 - (clamp_bbox x2 y2 w2 h2 W H).2.2.1).natAbs ≤ 1 ∧
    ((clamp_bbox x1 y1 w1 h1 W H).2.2.2 - (clamp_bbox x2 y2 w2 h2 W H).2.2.2).natAbs ≤ 1 := by
  simp only [clamp_bbox]
  refine ⟨by omega, by omega, by omega, by omega⟩

/-- Claim C5: for any reference bbox with w,h ≥ 1, the size-mode computation
with multipliers (wm, hm) and the edge-mode computation with
right_mul = left_mul + wm - 1, bottom_mul = top_mul + hm - 1 agree up to
integer rounding: each of the four output coordinates differs by at most
one pixel. -/
theorem size_edge_agree (ish : ℤ × ℤ) (x y w h : ℤ) (l t wm hm : ℚ)
    (hw : 1 ≤ w) (hh : 1 ≤ h) :
    ((size_mode_bbox ish (x, y, w, h) l t wm hm).1 -
       (rect_from_logo_relative ish (x, y, w, h) l t (l + wm - 1) (t + hm - 1)).1).natAbs ≤ 1 ∧
    ((size_mode_bbox ish (x, y, w, h) l t wm hm).2.1 -
       (rect_from_logo_relative ish (x, y, w, h) l t (l + wm - 1) (t + hm - 1)).2.1).natAbs ≤ 1 ∧
    ((size_mode_bbox ish (x, y, w, h) l t wm hm).2.2.1 -
       (rect_from_logo_relative ish (x, y, w, h) l t (l + wm - 1) (t + hm - 1)).2.2.1).natAbs ≤ 1 ∧
    ((size_mode_bbox ish (x, y, w, h) l t wm hm).2.2.2 -
       (rect_from_logo_relative ish (x, y, w, h) l t (l + wm - 1) (t + hm - 1)).2.2.2).natAbs ≤ 1 := by
  have keyx : (pyRound ((pyRound ((x : ℚ) + l * (w : ℚ)) : ℚ) + wm * (w : ℚ)) -
      pyRound ((x : ℚ) + (w : ℚ) + (l + wm - 1) * (w : ℚ))).natAbs ≤ 1 := by
    apply pyRound_diff
    have harg : ((pyRound ((x : ℚ) + l * (w : ℚ)) : ℚ) + wm * (w : ℚ)) -
        ((x : ℚ) + (w : ℚ) + (l + wm - 1) * (w : ℚ)) =
        (pyRound ((x : ℚ) + l * (w : ℚ)) : ℚ) - ((x : ℚ) + l * (w : ℚ)) := by ring
    rw [harg]
    exact pyRound_close _
  have keyy : (pyRound ((pyRound ((y : ℚ) + t * (h : ℚ)) : ℚ) + hm * (h : ℚ)) -
      pyRound ((y : ℚ) + (h : ℚ) + (t + hm - 1) * (h : ℚ))).natAbs ≤ 1 := by
    apply pyRound_diff
    have harg : ((pyRound ((y : ℚ) + t * (h : ℚ)) : ℚ) + hm * (h : ℚ)) -
        ((y : ℚ) + (h : ℚ) + (t + hm - 1) * (h : ℚ)) =
        (pyRound ((y : ℚ) + t * (h : ℚ)) : ℚ) - ((y : ℚ) + t * (h : ℚ)) := by ring
    rw [harg]
    exact pyRound_close _
  set A := pyRound ((x : ℚ) + l * (w : ℚ)) with hA
  set B := pyRound ((A : ℚ) + wm * (w : ℚ)) with hB
  set C := pyRound ((x : ℚ) + (w : ℚ) + (l + wm - 1) * (w : ℚ)) with hC
  set D := pyRound ((y : ℚ) + t * (h : ℚ)) with hD
  set E := pyRound ((D : ℚ) + hm * (h : ℚ)) with hE
  set F := pyRound ((y : ℚ) + (h : ℚ) + (t + hm - 1) * (h : ℚ)) with hF
  have es : size_mode_bbox ish (x, y, w, h) l t wm hm =
      clamp_bbox (min A B) (min D E) |B - A| |E - D| ish.2 ish.1 := rfl
  have ee : rect_from_logo_relative ish (x, y, w, h) l t (l + wm - 1) (t + hm - 1) =
      clamp_bbox (min A C) (min D F) (max A C - min A C) (max D F - min D F) ish.2 ish.1 := rfl
  rw [es, ee]
  clear es ee hA hB hC hD hE hF
  clear_value A B C D E F
  have hx : ((min A B : ℤ) - min A C).natAbs ≤ 1 := by omega
  have hy : ((min D E : ℤ) - min D F).natAbs ≤ 1 := by omega
  have hw2 : ((|B - A| : ℤ) - (max A C - min A C)).natAbs ≤ 1 := by
    simp only [Int.abs_eq_natAbs]; omega
  have hh2 : ((|E - D| : ℤ) - (max D F - min D F)).natAbs ≤ 1 := by
    simp only [Int.abs_eq_natAbs]; omega
  exact clamp_bbox_close _ _ _ _ _ _ _ _ _ _ hx hy hw2 hh2

/-- Claim C8: `Profile.compute_bbox` fails with a validation error exactly
when mode-required multipliers are absent (edge mode: right_mul/bottom_mul,
size mode: width_mul/height_mul); when they are present it dispatches to the
edge-mode computation or the size-mode computation respectively, never
returning a partial bbox. -/
theorem compute_bbox_spec (p : Profile) (ish : ℤ × ℤ) (bb : ℤ × ℤ × ℤ × ℤ) :
    ((∃ e, p.compute_bbox ish bb = Except.error e) ↔
      (p.mode = Mode.edge ∧ (p.right_mul = none ∨ p.bottom_mul = none)) ∨
      (p.mode = Mode.size ∧ (p.width_mul = none ∨ p.height_mul = none))) ∧
    (∀ r b, p.mode = Mode.edge → p.right_mul = some r → p.bottom_mul = some b →
      p.compute_bbox ish bb =
        Except.ok (rect_from_logo_relative ish bb p.left_mul p.top_mul r b)) ∧
    (∀ wm hm, p.mode = Mode.size → p.width_mul = some wm → p.height_mul = some hm →
      p.compute_bbox ish bb =
        Except.ok (size_mode_bbox ish bb p.left_mul p.top_mul wm hm)) := by
  refine ⟨?_, ?_, ?_⟩
  · cases hm : p.mode <;>
      cases hr : p.right_mul <;> cases hb : p.bottom_mul <;>
      cases hw : p.width_mul <;> cases hh : p.height_mul <;>
      simp [Profile.compute_bbox, hm, hr, hb, hw, hh]
  · intro r b hm hr hb
    simp [Profile.compute_bbox, hm, hr, hb]
  · intro wm hm' hmode hw hh
    simp [Profile.compute_bbox, hmode, hw, hh]

/-- Concrete instance of `compute_bbox_spec`: a size-mode profile with both
size multipliers present dispatches to the size-mode computation. -/
theorem compute_bbox_spec_witness :
    Profile.compute_bbox
        { name := "p", mode := Mode.size, left_mul := 0, top_mul := 2,
          right_mul := none, bottom_mul := none,
          width_mul := some 1, height_mul := some 1, section_thickness := 3 }
        (600, 800) (300, 200, 100, 50) =
      Except.ok (size_mode_bbox (600, 800) (300, 200, 100, 50) 0 2 1 1) :=
  (compute_bbox_spec
      { name := "p", mode := Mode.size, left_mul := 0, top_mul := 2,
        right_mul := none, bottom_mul := none,
        width_mul := some 1, height_mul := some 1, section_thickness := 3 }
      (600, 800) (300, 200, 100, 50)).2.2 1 1 rfl rfl rfl

/-- Claim C3: `detect_with_orb` (at the default min_matches = 10) returns
None exactly when descriptors are missing or either side has fewer than 4
keypoints, or fewer than 10 correspondences survive the ratio test, or no
homography is estimated; in every other case it returns a result. Being a
total function of the oracle, it raises no exception. -/
theorem detect_with_orb_none_iff (o : OrbOracle) :
    detect_with_orb o 10 = none ↔
      (o.des1 = none ∨ o.des2 = none ∨ o.kp1 < 4 ∨ o.kp2 < 4) ∨
      (orbGood o).length < 10 ∨ o.hom = none := by
  unfold detect_with_orb
  by_cases hpre : o.des1 = none ∨ o.des2 = none ∨ o.kp1 < 4 ∨ o.kp2 < 4
  · simp [hpre]
  · by_cases hlen : (orbGood o).length < 10
    · simp [hpre, hlen]
    · cases hh : o.hom with
      | none => simp [hpre, hlen, hh]
      | some pr =>
        cases pr with
        | mk Hm mask => simp [hpre, hlen, hh]

theorem tmLoop_val (o : TemplateOracle) (l : List ℚ) :
    ∀ (b : Option (ℤ × ℤ × ℤ × ℤ × ℚ)) (v : ℚ),
      (tmLoop o l b v).2 = l.foldl (tmStep o) v := by
  induction l with
  | nil => intro b v; rfl
  | cons s rest ih =>
    intro b v
    by_cases hs : tmSkip o s
    · simp [tmLoop, tmStep, hs, ih]
    · by_cases hv : v < (o.matchMax s).1
      · simp [tmLoop, tmStep, hs, hv, ih, max_eq_right (le_of_lt hv)]
      · simp [tmLoop, tmStep, hs, hv, ih, max_eq_left (not_lt.mp hv)]

theorem le_foldl_tmStep (o : TemplateOracle) (l : List ℚ) :
    ∀ v : ℚ, v ≤ l.foldl (tmStep o) v := by
  induction l with
  | nil => intro v; exact le_refl v
  | cons s rest ih =>
    intro v
    refine le_trans ?_ (ih (tmStep o v s))
    unfold tmStep
    by_cases hs : tmSkip o s
    · simp [hs]
    · simp [hs, le_max_left]

theorem mem_le_foldl_tmStep (o : TemplateOracle) (l : List ℚ) :
    ∀ (v : ℚ) (s : ℚ), s ∈ l → tmSkip o s = false →
      (o.matchMax s).1 ≤ l.foldl (tmStep o) v := by
  induction l with
  | nil => intro v s hs; exact absurd hs (List.not_mem_nil s)
  | cons u rest ih =>
    intro v s hs hskip
    rcases List.mem_cons.mp hs with heq | hmem
    · subst heq
      refine le_trans ?_ (le_foldl_tmStep o rest (tmStep o v s))
      unfold tmStep
      simp [hskip, le_max_right]
    · exact ih (tmStep o v u) s hmem hskip

theorem tmLoop_some_isSome (o : TemplateOracle) (l : List ℚ) :
    ∀ (r : ℤ × ℤ × ℤ × ℤ × ℚ) (v : ℚ), ((tmLoop o l (some r) v).1).isSome := by
  induction l with
  | nil => intro r v; rfl
  | cons s rest ih =>
    intro r v
    by_cases hs : tmSkip o s
    · simpa [tmLoop, hs] using ih r v
    · by_cases hv : v < (o.matchMax s).1
      · simpa [tmLoop, hs, hv] using ih (tmRecord o s) ((o.matchMax s).1)
      · simpa [tmLoop, hs, hv] using ih r v

theorem tmLoop_none_iff (o : TemplateOracle) (l : List ℚ) :
    (tmLoop o l none (-1)).1 = none ↔
      ∀ s ∈ l, tmSkip o s = true ∨ (o.matchMax s).1 ≤ -1 := by
  induction l with
  | nil => simp [tmLoop]
  | cons s rest ih =>
    by_cases hs : tmSkip o s
    · simp [tmLoop, hs, ih]
    · by_cases hv : (-1 : ℚ) < (o.matchMax s).1
      · have hsome := tmLoop_some_isSome o rest (tmRecord o s) ((o.matchMax s).1)
        constructor
        · intro h
          exfalso
          rw [show tmLoop o (s :: rest) none (-1) =
              tmLoop o rest (some (tmRecord o s)) ((o.matchMax s).1) by
            simp [tmLoop, hs, hv]] at h
          rw [h] at hsome
          exact Bool.noConfusion hsome
        · intro h
          exfalso
          rcases h s (List.mem_cons_self s rest) with hskip | hle
          · exact hs hskip
          · exact absurd hv (not_lt.mpr hle)
      · have hstate : tmLoop o (s :: rest) none (-1) = tmLoop o rest none (-1) := by
          simp [tmLoop, hs, hv]
        rw [hstate, ih]
        constructor
        · intro h u hu
          rcases List.mem_cons.mp hu with heq | hmem
          · subst heq; exact Or.inr (not_lt.mp hv)
          · exact h u hmem
        · intro h u hu
          exact h u (List.mem_cons_of_mem s hu)

theorem tmLoop_best (o : TemplateOracle) (l : List ℚ) :
    ∀ (b : Option (ℤ × ℤ × ℤ × ℤ × ℚ)) (v : ℚ),
      (∀ p, b = some p → p.2.2.2.2 = v) →
      ∀ p, (tmLoop o l b v).1 = some p →
        p.2.2.2.2 = (tmLoop o l b v).2 ∧
        (b = some p ∨ ∃ s ∈ l, tmSkip o s = false ∧ p = tmRecord o s) := by
  induction l with
  | nil =>
    intro b v hb p h
    simp only [tmLoop] at h ⊢
    exact ⟨hb p h, Or.inl h⟩
  | cons s rest ih =>
    intro b v hb p h
    by_cases hs : tmSkip o s
    · rw [show tmLoop o (s :: rest) b v = tmLoop o rest b v by simp [tmLoop, hs]] at h ⊢
      rcases ih b v hb p h with ⟨h1, h2⟩
      refine ⟨h1, ?_⟩
      rcases h2 with heq | ⟨u, hu, hx⟩
      · exact Or.inl heq
      · exact Or.inr ⟨u, List.mem_cons_of_mem s hu, hx⟩
    · by_cases hv : v < (o.matchMax s).1
      · rw [show tmLoop o (s :: rest) b v =
            tmLoop o rest (some (tmRecord o s)) ((o.matchMax s).1) by
          simp [tmLoop, hs, hv]] at h ⊢
        have hb2 : ∀ p, (some (tmRecord o s) : Option (ℤ × ℤ × ℤ × ℤ × ℚ)) = some p →
            p.2.2.2.2 = (o.matchMax s).1 := by
          intro p hp
          rw [← Option.some.inj hp]
          rfl
        rcases ih (some (tmRecord o s)) ((o.matchMax s).1) hb2 p h with ⟨h1, h2⟩
        refine ⟨h1, Or.inr ?_⟩
        rcases h2 with heq | ⟨u, hu, hx⟩
        · exact ⟨s, List.mem_cons_self s rest,
            Bool.not_eq_true _ ▸ by simpa using hs, Option.some.inj heq.symm ▸ rfl⟩
        · exact ⟨u, List.mem_cons_of_mem s hu, hx⟩
      · rw [show tmLoop o (s :: rest) b v = tmLoop o rest b v by simp [tmLoop, hs, hv]] at h ⊢
        rcases ih b v hb p h with ⟨h1, h2⟩
        refine ⟨h1, ?_⟩
        rcases h2 with heq | ⟨u, hu, hx⟩
        · exact Or.inl heq
        · exact Or.inr ⟨u, List.mem_cons_of_mem s hu, hx⟩

theorem detect_with_template_none_char (o : TemplateOracle) (scales : List ℚ) :
    detect_with_template o (some scales) = none ↔
      ∀ s ∈ scales, tmSkip o s = true ∨ (o.matchMax s).1 ≤ -1 := by
  rw [← tmLoop_none_iff]
  unfold detect_with_template
  rcases h : tmLoop o scales none (-1) with ⟨b, v⟩
  rcases b with _ | ⟨⟨x, y, w, hgt, score⟩⟩ <;> simp [h]

theorem detect_with_template_some_char (o : TemplateOracle) (scales : List ℚ)
    (r : DetectionResult) (h : detect_with_template o (some scales) = some r) :
    ∃ s ∈ scales, tmSkip o s = false ∧
      r.confidence = (o.matchMax s).1 ∧
      (∀ u ∈ scales, tmSkip o u = false → (o.matchMax u).1 ≤ r.confidence) ∧
      r.bbox = clamp_bbox (o.matchMax s).2.1 (o.matchMax s).2.2
        (o.resized s).2 (o.resized s).1 o.imgShape.2 o.imgShape.1 := by
  rcases hloop : tmLoop o scales none (-1) with ⟨b, v⟩
  rcases b with _ | ⟨⟨x, y, w, hgt, score⟩⟩
  · simp only [detect_with_template, hloop] at h
    exact Option.noConfusion h
  · simp only [detect_with_template, hloop, Option.some.injEq] at h
    have hbest := tmLoop_best o scales none (-1) (by intro p hp; exact Option.noConfusion hp)
      (x, y, w, hgt, score) (by rw [hloop])
    rcases hbest with ⟨hscore, hcase⟩
    rcases hcase with habs | ⟨s, hmem, hskip, hrec⟩
    · exact Option.noConfusion habs
    · refine ⟨s, hmem, hskip, ?_, ?_, ?_⟩
      · rw [← h]
        have : score = (tmRecord o s).2.2.2.2 := by rw [← hrec]
        rw [this]
        rfl
      · intro u hu huskip
        rw [← h]
        have hv : ((tmLoop o scales none (-1)).2) = scales.foldl (tmStep o) (-1) :=
          tmLoop_val o scales none (-1)
        rw [hloop] at hv
        have hle := mem_le_foldl_tmStep o scales (-1) u hu huskip
        rw [← hv] at hle
        have hsc : score = v := by rw [hloop] at hscore; exact hscore
        show (o.matchMax u).1 ≤ score
        rw [hsc]
        exact hle
      · rw [← h]
        have h1 : x = (o.matchMax s).2.1 := congrArg (fun p => p.1) hrec
        have h2 : y = (o.matchMax s).2.2 := congrArg (fun p => p.2.1) hrec
        have h3 : w = (o.resized s).2 := congrArg (fun p => p.2.2.1) hrec
        have h4 : hgt = (o.resized s).1 := congrArg (fun p => p.2.2.2.1) hrec
        show clamp_bbox x y w hgt o.imgShape.2 o.imgShape.1 = _
        rw [h1, h2, h3, h4]

/-- Counterexample to claim C4 as stated: the single scale 1 is not skipped,
yet `detect_with_template` returns NOT_FOUND, because a candidate is
recorded only when its score strictly exceeds the initial best_val of -1.0.
So NOT_FOUND does not hold "if and only if every scale was skipped". -/
theorem detect_with_template_claim_cx :
    detect_with_template tmOracleCx (some [1]) = none ∧
      tmSkip tmOracleCx 1 = false := by
  constructor
  · rfl
  · rfl

/-- Claim C4 (amended): `detect_with_template` skips exactly the scales at
which the resized template does not fit strictly inside the image or is
smaller than 8px (`tmSkip`); it returns NOT_FOUND iff every scale is skipped
OR scores at most -1.0 (the initial best), and otherwise returns the bbox
recorded at a non-skipped scale whose correlation score is the global
maximum over all non-skipped scales, that score being the confidence. -/
theorem detect_with_template_spec (o : TemplateOracle) (scales : List ℚ) :
    (detect_with_template o (some scales) = none ↔
      ∀ s ∈ scales, tmSkip o s = true ∨ (o.matchMax s).1 ≤ -1) ∧
    ∀ r, detect_with_template o (some scales) = some r →
      ∃ s ∈ scales, tmSkip o s = false ∧
        r.confidence = (o.matchMax s).1 ∧
        (∀ u ∈ scales, tmSkip o u = false → (o.matchMax u).1 ≤ r.confidence) ∧
        r.bbox = clamp_bbox (o.matchMax s).2.1 (o.matchMax s).2.2
          (o.resized s).2 (o.resized s).1 o.imgShape.2 o.imgShape.1 :=
  ⟨detect_with_template_none_char o scales,
   fun r h => detect_with_template_some_char o scales r h⟩

/-- Concrete instance of `detect_with_template_spec` at `tmOracleWit`. -/
theorem detect_with_template_spec_witness :
    ∃ s ∈ [(1 : ℚ)], tmSkip tmOracleWit s = false ∧
      tmResWit.confidence = (tmOracleWit.matchMax s).1 ∧
      (∀ u ∈ [(1 : ℚ)], tmSkip tmOracleWit u = false →
        (tmOracleWit.matchMax u).1 ≤ tmResWit.confidence) ∧
      tmResWit.bbox = clamp_bbox (tmOracleWit.matchMax s).2.1
        (tmOracleWit.matchMax s).2.2 (tmOracleWit.resized s).2
        (tmOracleWit.resized s).1 tmOracleWit.imgShape.2 tmOracleWit.imgShape.1 :=
  (detect_with_template_spec tmOracleWit [1]).2 tmResWit (by rfl)

/-- Claim C2: method "orb" returns exactly the Feature-Match outcome (its
result, or NOT_FOUND when it fails) and never consults Template-Match;
method "template" returns exactly the Template-Match outcome; method "auto"
returns the Feature-Match result when it succeeds and otherwise the
Template-Match outcome. -/
theorem detect_logo_policy (oO : OrbOracle) (oT : TemplateOracle) :
    (detect_logo oO oT (some "orb") = detect_with_orb oO 10) ∧
    (∀ oT2 : TemplateOracle, detect_logo oO oT (some "orb") = detect_logo oO oT2 (some "orb")) ∧
    (detect_logo oO oT (some "template") = detect_with_template oT none) ∧
    (detect_logo oO oT (some "auto") =
      match detect_with_orb oO 10 with
      | some r => some r
      | none => detect_with_template oT none) := by
  have hlo : pyLower (pyStrOr (some "orb") "auto") = "orb" := by decide
  have hlt : pyLower (pyStrOr (some "template") "auto") = "template" := by decide
  have hla : pyLower (pyStrOr (some "auto") "auto") = "auto" := by decide
  refine ⟨?_, ?_, ?_, ?_⟩
  · simp only [detect_logo, hlo]
    cases horb : detect_with_orb oO 10 <;> simp [horb]
  · intro oT2
    simp only [detect_logo, hlo]
    cases horb : detect_with_orb oO 10 <;> simp [horb]
  · simp only [detect_logo, hlt]
    rw [if_neg (by decide : ¬(("template" : String) = "auto" ∨ ("template" : String) = "orb"))]
  · simp only [detect_logo, hla]
    cases horb : detect_with_orb oO 10 <;> simp [horb]

/-- Claim C10: `detect_logo` lowercases its method and treats None and ""
as "auto"; every method whose lowercase form is neither "auto" nor "orb"
(including "template" and any unrecognized value) runs only the
Template-Match detector — an invalid method is never rejected and behaves
exactly like "template". -/
theorem detect_logo_method_normalization (oO : OrbOracle) (oT : TemplateOracle)
    (mth : Option String)
    (h1 : pyLower (pyStrOr mth "auto") ≠ "auto")
    (h2 : pyLower (pyStrOr mth "auto") ≠ "orb") :
    detect_logo oO oT mth = detect_with_template oT none ∧
    detect_logo oO oT mth = detect_logo oO oT (some "template") ∧
    detect_logo oO oT none = detect_logo oO oT (some "auto") ∧
    detect_logo oO oT (some "") = detect_logo oO oT (some "auto") := by
  have hmain : detect_logo oO oT mth = detect_with_template oT none := by
    simp only [detect_logo]
    rw [if_neg]
    intro hor
    rcases hor with h | h
    · exact h1 h
    · exact h2 h
  have htmpl : detect_logo oO oT (some "template") = detect_with_template oT none := by
    simp only [detect_logo]
    rw [if_neg (by decide : ¬(pyLower (pyStrOr (some "template") "auto") = "auto" ∨
      pyLower (pyStrOr (some "template") "auto") = "orb"))]
  exact ⟨hmain, hmain.trans htmpl.symm, rfl, rfl⟩

/-- Concrete instance of `detect_logo_method_normalization` at the
unrecognized mixed-case method "Bogus". -/
theorem detect_logo_method_normalization_witness :
    detect_logo orbOracleWit tmOracleWit (some "Bogus") = detect_with_template tmOracleWit none ∧
    detect_logo orbOracleWit tmOracleWit (some "Bogus") =
      detect_logo orbOracleWit tmOracleWit (some "template") ∧
    detect_logo orbOracleWit tmOracleWit none = detect_logo orbOracleWit tmOracleWit (some "auto") ∧
    detect_logo orbOracleWit tmOracleWit (some "") =
      detect_logo orbOracleWit tmOracleWit (some "auto") :=
  detect_logo_method_normalization orbOracleWit tmOracleWit (some "Bogus")
    (by decide) (by decide)

/-- Claim C7: a successful Feature-Match result has confidence equal to the
inlier count over the number of good correspondences, clipped to [0,1]
(the inlier mask returned by `cv2.findHomography` has one entry per input
correspondence, the `hlen` hypothesis); a successful Template-Match result
has confidence equal to the raw best correlation score, with no clipping —
the score of a non-skipped scale that maximizes the correlation over all
non-skipped scales. -/
theorem detector_confidence_spec (oO : OrbOracle) (Hm : Mat3) (mask : List Bool)
    (hhom : oO.hom = some (Hm, some mask))
    (hlen : mask.length = (orbGood oO).length)
    (r1 : DetectionResult) (h1 : detect_with_orb oO 10 = some r1)
    (oT : TemplateOracle) (scales : List ℚ) (r2 : DetectionResult)
    (h2 : detect_with_template oT (some scales) = some r2) :
    r1.confidence =
      min 1 (max 0 (((mask.countP id : ℤ) : ℚ) / (((orbGood oO).length : ℤ) : ℚ))) ∧
    ∃ s ∈ scales, tmSkip oT s = false ∧ r2.confidence = (oT.matchMax s).1 ∧
      ∀ u ∈ scales, tmSkip oT u = false → (oT.matchMax u).1 ≤ r2.confidence := by
  constructor
  · by_cases hpre : oO.des1 = none ∨ oO.des2 = none ∨ oO.kp1 < 4 ∨ oO.kp2 < 4
    · simp [detect_with_orb, hpre] at h1
    · by_cases hlen10 : (orbGood oO).length < 10
      · simp [detect_with_orb, hpre, hlen10] at h1
      · simp only [detect_with_orb, hhom, if_neg hpre, if_neg hlen10,
          Option.some.injEq] at h1
        rw [← h1, ← hlen]
  · rcases detect_with_template_some_char oT scales r2 h2 with
      ⟨s, hs, hskip, hconf, hmax, hbbox⟩
    exact ⟨s, hs, hskip, hconf, hmax⟩

/-- Concrete instance of `detector_confidence_spec` at `orbOracleWit` (10 of
10 inliers, confidence 1) and `tmOracleWit` (best correlation 1). -/
theorem detector_confidence_spec_witness :
    orbResWit.confidence =
      min 1 (max 0 ((((List.replicate 10 true).countP id : ℤ) : ℚ) /
        (((orbGood orbOracleWit).length : ℤ) : ℚ))) ∧
    ∃ s ∈ [(1 : ℚ)], tmSkip tmOracleWit s = false ∧
      tmResWit.confidence = (tmOracleWit.matchMax s).1 ∧
      ∀ u ∈ [(1 : ℚ)], tmSkip tmOracleWit u = false →
        (tmOracleWit.matchMax u).1 ≤ tmResWit.confidence :=
  detector_confidence_spec orbOracleWit idMat3 (List.replicate 10 true) rfl
    (by with_unfolding_all rfl) orbResWit (by with_unfolding_all rfl)
    tmOracleWit [1] tmResWit (by rfl)

/-- Claim C9: whenever the primary detection succeeds and the secondary
rectangle computation raises, `annotate` swallows the exception and still
returns the annotated image containing (exactly) the primary detection. -/
theorem annotate_swallows_section_error (res : Option DetectionResult)
    (shape : ℤ × ℤ) (profile : Option String)
    (getProfile : String → Option Profile) (sl st sr sb swm shm : Option ℚ)
    (r : DetectionResult) (e : String) (hres : res = some r)
    (herr : annotate_section_block shape r.bbox profile getProfile
      sl st sr sb swm shm = Except.error e) :
    annotate res shape profile getProfile sl st sr sb swm shm =
      Except.ok (r.bbox, none) := by
  subst hres
  simp only [annotate, herr]

/-- Concrete instance of `annotate_swallows_section_error`: the secondary
rectangle names a profile that does not exist, the lookup error is
swallowed, and the primary annotation is returned. -/
theorem annotate_swallows_section_error_witness :
    annotate (some tmResWit) (600, 800) (some "missing") (fun _ => none)
      none none none none none none = Except.ok (tmResWit.bbox, none) :=
  annotate_swallows_section_error (some tmResWit) (600, 800) (some "missing")
    (fun _ => none) none none none none none none tmResWit "Profile not found"
    rfl rfl

/-- Concrete instance of `size_edge_agree` on the reference bbox
(300, 200, 100, 50) in a 600×800 image with left = 0, top = 2,
width_mul = height_mul = 1. -/
theorem size_edge_agree_witness :
    ((size_mode_bbox (600, 800) (300, 200, 100, 50) 0 2 1 1).1 -
       (rect_from_logo_relative (600, 800) (300, 200, 100, 50) 0 2
         (0 + 1 - 1) (2 + 1 - 1)).1).natAbs ≤ 1 ∧
    ((size_mode_bbox (600, 800) (300, 200, 100, 50) 0 2 1 1).2.1 -
       (rect_from_logo_relative (600, 800) (300, 200, 100, 50) 0 2
         (0 + 1 - 1) (2 + 1 - 1)).2.1).natAbs ≤ 1 ∧
    ((size_mode_bbox (600, 800) (300, 200, 100, 50) 0 2 1 1).2.2.1 -
       (rect_from_logo_relative (600, 800) (300, 200, 100, 50) 0 2
         (0 + 1 - 1) (2 + 1 - 1)).2.2.1).natAbs ≤ 1 ∧
    ((size_mode_bbox (600, 800) (300, 200, 100, 50) 0 2 1 1).2.2.2 -
       (rect_from_logo_relative (600, 800) (300, 200, 100, 50) 0 2
         (0 + 1 - 1) (2 + 1 - 1)).2.2.2).natAbs ≤ 1 :=
  size_edge_agree (600, 800) 300 200 100 50 0 2 1 1 (by decide) (by decide)
